import Mathlib

/-
Shallow embedding of the rs-usbtmc USBTMC wire-protocol engine
(src/communication/bulk.rs, src/communication/control.rs, src/types.rs,
src/constants.rs).

Machine integers (u8, u16, u32) are modelled as Nat with explicit `% 256`
(resp. `% 2^32`) where the source converts or truncates.  The USB transport
is modelled by its observable trace: `write` returns the list of
transactions (header, padded wire transfers) that would be handed to
`write_bulk`, and `read` consumes a list of device responses, one per
`read_bulk` call.
-/

namespace Usbtmc

/-- rusb::Direction -/
inductive Direction
  | In
  | Out
deriving DecidableEq, Repr

/-- rusb::TransferType (the two variants used by this crate) -/
inductive TransferType
  | Bulk
  | Interrupt
deriving DecidableEq, Repr

/-- types.rs Endpoint -/
structure Endpoint where
  address : Nat
  max_packet_size : Nat
  transfer_type : TransferType
  direction : Direction
deriving DecidableEq, Repr

/-- types.rs Capabilities -/
structure Capabilities where
  bcd_version : Nat
  accepts_indicator_pulse_request : Bool
  is_talk_only : Bool
  is_listen_only : Bool
  supports_bulk_in_term_char : Bool
deriving DecidableEq, Repr

/-- error.rs Error variants used by the communication layer -/
inductive Error
  | IncorrectEndpoint
  | StatusFailure
  | StatusNoTransferInProgress
  | StatusUnexpectedFailure
  | BulkInFIFONotEmpty
deriving DecidableEq, Repr

-- constants.rs
def USBTMC_HEADER_SIZE : Nat := 12
def APPLICATION_BUFFER_SIZE : Nat := 1024 * 8
def DEFAULT_TERM_CHAR : Nat := 10
def STATUS_SUCCESS : Nat := 0x01
def STATUS_PENDING : Nat := 0x02
def STATUS_FAILED : Nat := 0x80
def DEVICE_DEPENDENT_MSG_OUT : Nat := 1
def REQUEST_DEVICE_DEPENDENT_MSG_IN : Nat := 2
def VENDOR_SPECIFIC_MSG_OUT : Nat := 126
def REQUEST_VENDOR_SPECIFIC_MSG_IN : Nat := 127

/-- Bitwise complement on u8 (Rust `!b` for `b: u8`). -/
def notU8 (b : Nat) : Nat := 255 - b % 256

/-- bulk.rs device_dependent_msg_out_header: 12 bytes, byte 0 = msg id 1,
byte 1 = bTag, byte 2 = !bTag, bytes 4..7 = transfer_size in LE,
byte 8 = 1 when end_of_message. -/
def device_dependent_msg_out_header (btag transfer_size : Nat)
    (end_of_message : Bool) : List Nat :=
  [DEVICE_DEPENDENT_MSG_OUT, btag % 256, notU8 btag, 0,
   transfer_size % 256, transfer_size / 256 % 256,
   transfer_size / 65536 % 256, transfer_size / 16777216 % 256,
   if end_of_message then 0b00000001 else 0, 0, 0, 0]

/-- bulk.rs request_device_dependent_msg_in_header: byte 2 = !header[1];
bytes 8 and 9 set only when a terminator character is supplied. -/
def request_device_dependent_msg_in_header (btag transfer_size : Nat)
    (term_char : Option Nat) : List Nat :=
  [REQUEST_DEVICE_DEPENDENT_MSG_IN, btag % 256, notU8 (btag % 256), 0,
   transfer_size % 256, transfer_size / 256 % 256,
   transfer_size / 65536 % 256, transfer_size / 16777216 % 256,
   match term_char with
   | some _ => 0b00000010
   | none => 0,
   match term_char with
   | some tc => tc % 256
   | none => 0,
   0, 0]

/-- bulk.rs _vendor_specific_out_header -/
def _vendor_specific_out_header (btag transfer_size : Nat) : List Nat :=
  [VENDOR_SPECIFIC_MSG_OUT, btag % 256, notU8 btag, 0,
   transfer_size % 256, transfer_size / 256 % 256,
   transfer_size / 65536 % 256, transfer_size / 16777216 % 256,
   0, 0, 0, 0]

/-- bulk.rs _request_vendor_specific_in_header -/
def _request_vendor_specific_in_header (btag transfer_size : Nat) : List Nat :=
  [REQUEST_VENDOR_SPECIFIC_MSG_IN, btag % 256, notU8 btag, 0,
   transfer_size % 256, transfer_size / 256 % 256,
   transfer_size / 65536 % 256, transfer_size / 16777216 % 256,
   0, 0, 0, 0]

namespace BTag

/-- types.rs BTag::new: the generator starts at 1. -/
def new : Nat := 1

/-- types.rs BTag::get: returns the stored value, then stores 1 if it was
255 and the incremented value otherwise.  Result: (returned value, new
stored value). -/
def get (b : Nat) : Nat × Nat :=
  (b, if b = 255 then 1 else b + 1)

end BTag

/-- The stored bTag value after n calls to get, starting from BTag.new. -/
def btagState : Nat → Nat
  | 0 => BTag.new
  | n + 1 => (BTag.get (btagState n)).2

-- ===== control.rs =====

/-- control.rs get_capabilities, after the control transfer has filled the
0x18-byte response buffer: fails unless byte 0 is STATUS_SUCCESS, then
extracts bcd_version from bytes 2..3 (little endian) and the capability
flags from bytes 4 and 5. -/
def get_capabilities (buffer : List Nat) : Except Error Capabilities :=
  if buffer.getD 0 0 = STATUS_SUCCESS then
    Except.ok
      { bcd_version := buffer.getD 2 0 + 256 * buffer.getD 3 0
        accepts_indicator_pulse_request := buffer.getD 4 0 &&& 0b00000100 != 0
        is_talk_only := buffer.getD 4 0 &&& 0b00000010 != 0
        is_listen_only := buffer.getD 4 0 &&& 0b00000001 != 0
        supports_bulk_in_term_char := buffer.getD 5 0 &&& 0b00000001 != 0 }
  else
    Except.error Error.StatusUnexpectedFailure

/-- Outcome of a control-endpoint state machine run against a finite trace
of device responses.  `outOfResponses` marks a run whose poll loop was still
going when the modelled response trace ran out. -/
inductive ControlOutcome
  | ok
  | err (e : Error)
  | outOfResponses
deriving DecidableEq, Repr

/-- control.rs clear_buffers, CHECK_CLEAR_STATUS poll loop.  Each element of
the list is the 2-byte response buffer of one poll iteration.  PENDING with
the FIFO-empty flag (byte 1 xor 1 == 0) keeps polling, PENDING with data
still buffered fails with BulkInFIFONotEmpty, SUCCESS ends the loop, any
other status is an unexpected failure. -/
def check_clear_status_loop : List (List Nat) → ControlOutcome
  | [] => ControlOutcome.outOfResponses
  | buffer :: rest =>
    let status := buffer.getD 0 0
    if status = STATUS_PENDING then
      let fifo_is_empty : Bool := buffer.getD 1 0 ^^^ 0b00000001 == 0
      if !fifo_is_empty then ControlOutcome.err Error.BulkInFIFONotEmpty
      else check_clear_status_loop rest
    else if status = STATUS_SUCCESS then ControlOutcome.ok
    else ControlOutcome.err Error.StatusUnexpectedFailure

/-- control.rs clear_buffers: INITIATE_CLEAR must yield STATUS_SUCCESS
(anything else is an unexpected failure), then the CHECK_CLEAR_STATUS loop
runs over the poll responses. -/
def clear_buffers (init_response : List Nat)
    (poll_responses : List (List Nat)) : ControlOutcome :=
  if init_response.getD 0 0 = STATUS_SUCCESS then
    check_clear_status_loop poll_responses
  else
    ControlOutcome.err Error.StatusUnexpectedFailure

-- ===== bulk.rs write =====

/-- Fuel-indexed core of Rust slice `chunks`.  The fuel is an upper bound on
the number of chunks; `chunks` instantiates it with the list length, which
suffices whenever the chunk size is positive. -/
def chunksAux {α : Type} (k : Nat) : Nat → List α → List (List α)
  | _, [] => []
  | 0, _ :: _ => []
  | fuel + 1, x :: xs => ((x :: xs).take k) :: chunksAux k fuel ((x :: xs).drop k)

/-- Rust slice `chunks(k)`: splits a list into consecutive chunks of length
k, the last possibly shorter.  (Rust panics on k = 0; this model is only
used, and only proved about, with k positive.) -/
def chunks {α : Type} (k : Nat) (l : List α) : List (List α) :=
  chunksAux k l.length l

/-- bulk.rs write, lines 56-62: the transfer is extended by
`transfer.len() % 4` zero bytes before being sent. -/
def padTransfer (transfer : List Nat) : List Nat :=
  transfer ++ List.replicate (transfer.length % 4) 0

/-- bulk.rs write, lines 32-37: the number of transactions. -/
def num_transactions (len : Nat) : Nat :=
  match len % APPLICATION_BUFFER_SIZE with
  | 0 => len / APPLICATION_BUFFER_SIZE
  | _ + 1 => len / APPLICATION_BUFFER_SIZE + 1

/-- bulk.rs write, lines 40-71: the body of the transaction loop.  For the
i-th transaction chunk the loop takes a fresh bTag, builds a header with
end_of_message exactly when i + 1 equals the transaction count, prepends it
to the chunk, splits the result into wire transfers of at most
max_packet_size bytes and pads each transfer.  Returns, per transaction,
its header and the padded transfers handed to write_bulk. -/
def writeTxAux (mps nt : Nat) :
    Nat → Nat → List (List Nat) → List (List Nat × List (List Nat))
  | _, _, [] => []
  | b, i, transaction :: rest =>
    let header := device_dependent_msg_out_header (BTag.get b).1
      transaction.length (i + 1 == nt)
    (header, (chunks mps (header ++ transaction)).map padTransfer) ::
      writeTxAux mps nt (BTag.get b).2 (i + 1) rest

/-- The transactions produced by bulk.rs write for a payload, given the
initial bTag state and the endpoint's max packet size. -/
def writeTransactions (btag0 : Nat) (data : List Nat) (mps : Nat) :
    List (List Nat × List (List Nat)) :=
  writeTxAux mps (num_transactions data.length) btag0 0
    (chunks APPLICATION_BUFFER_SIZE data)

/-- bulk.rs write: validates the bulk-out endpoint (direction Out, type
Bulk, else IncorrectEndpoint), then produces the transaction list. -/
def write (btag0 : Nat) (data : List Nat) (bulk_out_endpoint : Endpoint) :
    Except Error (List (List Nat × List (List Nat))) :=
  if bulk_out_endpoint.direction ≠ Direction.Out ∨
      bulk_out_endpoint.transfer_type ≠ TransferType.Bulk then
    Except.error Error.IncorrectEndpoint
  else
    Except.ok (writeTransactions btag0 data bulk_out_endpoint.max_packet_size)

-- ===== bulk.rs read =====

/-- Outcome of the bulk read loop against a finite trace of device
responses.  `ok data iterations` is a normal return; `panic` marks the
out-of-bounds slice `buffer[12..bytes_read]` with bytes_read < 12;
`outOfResponses` marks a loop still awaiting end-of-message when the
modelled response trace ran out; `err` is a typed error return. -/
inductive ReadOutcome
  | ok (data : List Nat) (iterations : Nat)
  | panic
  | outOfResponses
  | err (e : Error)
deriving DecidableEq, Repr

/-- Rust `handle.read_bulk(_, &mut buffer, _)` against a device response:
copies min(response length, buffer length) bytes into the front of the
buffer (the rest of the buffer keeps its previous contents) and returns the
updated buffer together with bytes_read. -/
def read_bulk (buffer resp : List Nat) : List Nat × Nat :=
  let n := min resp.length buffer.length
  (resp.take n ++ buffer.drop n, n)

/-- Rust slice indexing `&l[a..b]`: defined only when a ≤ b ≤ l.length,
otherwise the program panics (modelled as none). -/
def sliceRange (l : List Nat) (a b : Nat) : Option (List Nat) :=
  if a ≤ b ∧ b ≤ l.length then some ((l.take b).drop a) else none

/-- bulk.rs read, lines 119-147: each iteration sends the request header
over bulk-out, reads into the reused buffer, appends
buffer[12..bytes_read] to the output, and stops when bit 0 of byte 8 of
the buffer is set.  One response of the trace is consumed per iteration;
the iteration count is returned with the data. -/
def readLoop (buffer output_data : List Nat) (iterations : Nat) :
    List (List Nat) → ReadOutcome
  | [] => ReadOutcome.outOfResponses
  | resp :: rest =>
    let br := read_bulk buffer resp
    match sliceRange br.1 USBTMC_HEADER_SIZE br.2 with
    | none => ReadOutcome.panic
    | some frag =>
      let output_data := output_data ++ frag
      let read_attributes := br.1.getD 8 0
      if read_attributes &&& 0b00000001 ≠ 0 then
        ReadOutcome.ok output_data (iterations + 1)
      else
        readLoop br.1 output_data (iterations + 1) rest

/-- bulk.rs read: validates the endpoints (note: the source's second check
tests bulk_out_endpoint.transfer_type, not bulk_in_endpoint.transfer_type),
builds the REQUEST_DEV_DEP_MSG_IN header with a terminator character only
when the capabilities support it, allocates a zeroed buffer of
max_packet_size + 12 bytes, and runs the read loop over the responses. -/
def read (btag0 : Nat) (bulk_in_endpoint bulk_out_endpoint : Endpoint)
    (device_capabilities : Capabilities) (responses : List (List Nat)) :
    ReadOutcome :=
  if bulk_out_endpoint.direction ≠ Direction.Out ∨
      bulk_out_endpoint.transfer_type ≠ TransferType.Bulk then
    ReadOutcome.err Error.IncorrectEndpoint
  else if bulk_in_endpoint.direction ≠ Direction.In ∨
      bulk_out_endpoint.transfer_type ≠ TransferType.Bulk then
    ReadOutcome.err Error.IncorrectEndpoint
  else
    let term_char : Option Nat :=
      if device_capabilities.supports_bulk_in_term_char then
        some DEFAULT_TERM_CHAR
      else none
    let _request_header := request_device_dependent_msg_in_header
      (BTag.get btag0).1 bulk_in_endpoint.max_packet_size term_char
    let buffer := List.replicate
      (bulk_in_endpoint.max_packet_size + USBTMC_HEADER_SIZE) 0
    readLoop buffer [] 0 responses

-- ===== Helper lemmas about chunks and the write loop =====

theorem chunksAux_nil {α : Type} (k fuel : Nat) :
    chunksAux k fuel ([] : List α) = [] := by
  cases fuel <;> rfl

theorem chunksAux_fuel_eq {α : Type} (k : Nat) (hk : 0 < k) :
    ∀ (fuel₁ : Nat) (l : List α) (fuel₂ : Nat),
      l.length ≤ fuel₁ → l.length ≤ fuel₂ →
      chunksAux k fuel₁ l = chunksAux k fuel₂ l := by
  intro fuel₁
  induction fuel₁ with
  | zero =>
    intro l fuel₂ h1 _
    have hl : l = [] := List.eq_nil_of_length_eq_zero (by omega)
    subst hl
    rw [chunksAux_nil, chunksAux_nil]
  | succ n ih =>
    intro l fuel₂ h1 h2
    cases l with
    | nil => rw [chunksAux_nil, chunksAux_nil]
    | cons x xs =>
      cases fuel₂ with
      | zero => simp at h2
      | succ m =>
        show ((x :: xs).take k) :: chunksAux k n ((x :: xs).drop k) =
          ((x :: xs).take k) :: chunksAux k m ((x :: xs).drop k)
        have hlen : ((x :: xs).drop k).length = xs.length + 1 - k := by
          simp [List.length_drop]
        congr 1
        exact ih _ m (by simp at h1 ⊢; omega) (by simp at h2 ⊢; omega)

theorem chunks_cons {α : Type} (k : Nat) (hk : 0 < k) (x : α) (xs : List α) :
    chunks k (x :: xs) = (x :: xs).take k :: chunks k ((x :: xs).drop k) := by
  show ((x :: xs).take k) :: chunksAux k xs.length ((x :: xs).drop k) = _
  unfold chunks
  congr 1
  exact chunksAux_fuel_eq k hk xs.length _ _ (by simp; omega) (le_refl _)

theorem chunks_length {α : Type} (k : Nat) (hk : 0 < k) :
    ∀ (n : Nat) (l : List α), l.length ≤ n →
      (chunks k l).length = (l.length + (k - 1)) / k := by
  intro n
  induction n with
  | zero =>
    intro l h
    have hl : l = [] := List.eq_nil_of_length_eq_zero (by omega)
    subst hl
    show (0 : Nat) = (0 + (k - 1)) / k
    rw [Nat.zero_add, Nat.div_eq_of_lt (by omega)]
  | succ n ih =>
    intro l h
    cases l with
    | nil =>
      show (0 : Nat) = (0 + (k - 1)) / k
      rw [Nat.zero_add, Nat.div_eq_of_lt (by omega)]
    | cons x xs =>
      rw [chunks_cons k hk]
      have hdl : ((x :: xs).drop k).length = xs.length + 1 - k := by
        simp [List.length_drop]
      simp only [List.length_cons] at h ⊢
      rw [ih ((x :: xs).drop k) (by rw [hdl]; omega), hdl]
      rcases Nat.lt_or_ge xs.length k with hlt | hge
      · -- the whole list fits in one chunk
        have h0 : xs.length + 1 - k = 0 := by omega
        rw [h0, Nat.zero_add, Nat.div_eq_of_lt (by omega)]
        rw [show (xs.length + 1 + (k - 1)) / k = 1 from
          Nat.div_eq_of_lt_le (by omega) (by omega)]
      · -- at least one full chunk is taken
        have h1 : xs.length + 1 - k + (k - 1) = xs.length := by omega
        have h2 : xs.length + 1 + (k - 1) = xs.length + k := by omega
        rw [h1, h2, Nat.add_div_right _ hk]

theorem writeTxAux_length (mps nt : Nat) :
    ∀ (txs : List (List Nat)) (b i : Nat),
      (writeTxAux mps nt b i txs).length = txs.length := by
  intro txs
  induction txs with
  | nil => intro b i; rfl
  | cons t rest ih =>
    intro b i
    show (writeTxAux mps nt (BTag.get b).2 (i + 1) rest).length + 1 = _
    rw [ih]
    rfl

theorem writeTxAux_header_byte8 (mps nt : Nat) :
    ∀ (txs : List (List Nat)) (b i0 j : Nat), j < txs.length →
      ((writeTxAux mps nt b i0 txs).getD j ([], [])).1.getD 8 0 =
        if i0 + j + 1 = nt then 1 else 0 := by
  intro txs
  induction txs with
  | nil => intro b i0 j h; simp at h
  | cons t rest ih =>
    intro b i0 j h
    cases j with
    | zero =>
      show (device_dependent_msg_out_header (BTag.get b).1 t.length
        (i0 + 1 == nt)).getD 8 0 = _
      show (if (i0 + 1 == nt) then (1 : Nat) else 0) = _
      rcases Nat.decEq (i0 + 1) nt with hne | heq
      · rw [if_neg (by simpa using hne), if_neg (by omega)]
      · rw [if_pos (by simpa using heq), if_pos (by omega)]
    | succ m =>
      show ((writeTxAux mps nt (BTag.get b).2 (i0 + 1) rest).getD m
        ([], [])).1.getD 8 0 = _
      rw [ih _ (i0 + 1) m (by simpa using h)]
      have : i0 + 1 + m + 1 = i0 + (m + 1) + 1 := by omega
      rw [this]

theorem num_transactions_eq_ceil (L : Nat) :
    num_transactions L =
      (L + (APPLICATION_BUFFER_SIZE - 1)) / APPLICATION_BUFFER_SIZE := by
  unfold num_transactions APPLICATION_BUFFER_SIZE
  rcases h : L % (1024 * 8) with _ | m <;> simp at h ⊢ <;> omega

theorem writeTransactions_length (btag0 : Nat) (data : List Nat) (mps : Nat) :
    (writeTransactions btag0 data mps).length = num_transactions data.length := by
  unfold writeTransactions
  rw [writeTxAux_length]
  rw [chunks_length APPLICATION_BUFFER_SIZE (by decide) data.length data
    (le_refl _)]
  rw [num_transactions_eq_ceil]

-- ===== Concrete fixtures =====

/-- The bytes of the SCPI command "*IDN?". -/
def idn_command : List Nat := [42, 73, 68, 78, 63]

/-- A valid bulk-out endpoint with max packet size 64. -/
def bulk_out_ep_64 : Endpoint :=
  { address := 2, max_packet_size := 64,
    transfer_type := TransferType.Bulk, direction := Direction.Out }

/-- A valid bulk-in endpoint with max packet size 64. -/
def bulk_in_ep_64 : Endpoint :=
  { address := 129, max_packet_size := 64,
    transfer_type := TransferType.Bulk, direction := Direction.In }

/-- A bulk-in endpoint with the right direction but transfer type
Interrupt instead of Bulk. -/
def bulk_in_ep_interrupt : Endpoint :=
  { address := 129, max_packet_size := 64,
    transfer_type := TransferType.Interrupt, direction := Direction.In }

/-- An example capability record. -/
def example_capabilities : Capabilities :=
  { bcd_version := 0x0130, accepts_indicator_pulse_request := true,
    is_talk_only := false, is_listen_only := true,
    supports_bulk_in_term_char := true }

/-- The header write builds for "*IDN?" with bTag 1: one transaction of 5
bytes, end of message set. -/
def idn_header : List Nat := [1, 1, 254, 0, 5, 0, 0, 0, 1, 0, 0, 0]

/-- The single wire transfer the source actually sends for "*IDN?": header,
payload, and 17 % 4 = 1 zero byte of padding, 18 bytes in total. -/
def idn_sent_transfer : List Nat :=
  [1, 1, 254, 0, 5, 0, 0, 0, 1, 0, 0, 0, 42, 73, 68, 78, 63, 0]

/-- The 0x18-byte GET_CAPABILITIES response buffer of the C9 scenario. -/
def capabilities_response_example : List Nat :=
  [0x01, 0, 0x30, 0x01, 0b00000101, 0b00000001] ++ List.replicate 18 0

-- ===== Claim theorems =====

/-- Claim C1.  The claim states that every wire transfer is padded to the
smallest multiple of 4 greater than or equal to its pre-padding length.
The source instead appends `len % 4` zero bytes, so the 17-byte transfer
for "*IDN?" is sent with 18 bytes, which is not a multiple of 4 (the
smallest multiple of 4 at least 17 is 20).  This theorem evaluates the
embedded write at that failing input. -/
theorem write_pads_to_eighteen_not_twenty :
    write 1 idn_command bulk_out_ep_64 =
      Except.ok [(idn_header, [idn_sent_transfer])] ∧
    idn_sent_transfer.length = 18 ∧ ¬ (4 ∣ idn_sent_transfer.length) := by
  refine ⟨rfl, rfl, by decide⟩

/-- Claim C2.  The claim states that read fails with IncorrectEndpoint
whenever the bulk-in endpoint is not In/Bulk.  The source's second check
tests bulk_out_endpoint.transfer_type instead of
bulk_in_endpoint.transfer_type, so a bulk-in endpoint of type Interrupt
passes validation and read proceeds into the transport loop. -/
theorem read_accepts_interrupt_bulk_in_endpoint :
    read 1 bulk_in_ep_interrupt bulk_out_ep_64 example_capabilities [] =
      ReadOutcome.outOfResponses ∧
    ReadOutcome.outOfResponses ≠ ReadOutcome.err Error.IncorrectEndpoint := by
  refine ⟨rfl, by decide⟩

/-- Claim C3.  Writing "*IDN?" with bTag 1 on a max-packet-size-64 endpoint
produces exactly one transaction with exactly one wire transfer whose
pre-padding content is the 12-byte header followed by the 5 payload bytes
(17 bytes), as the claim states; but the sent transfer is 18 bytes, not the
20 bytes the claim states, because the source pads with `len % 4` bytes. -/
theorem idn_scenario_single_transfer_is_18_bytes :
    writeTransactions 1 idn_command 64 = [(idn_header, [idn_sent_transfer])] ∧
    idn_header = [1, 1, 254, 0, 5, 0, 0, 0, 1, 0, 0, 0] ∧
    (idn_header ++ idn_command).length = 17 ∧
    idn_sent_transfer = idn_header ++ idn_command ++ [0] ∧
    idn_sent_transfer.length = 18 := by
  exact ⟨rfl, rfl, rfl, rfl, rfl⟩

/-- Claim C6.  The bTag generator returns b and stores b + 1 for any stored
value b in 1..254, returns 255 and resets the store to 1 when the stored
value is 255, starts at 1, and, starting from BTag.new, never stores or
yields 0 (every reachable state lies in 1..255 and get returns the state
itself). -/
theorem btag_generator_spec :
    (∀ b, 1 ≤ b → b ≤ 254 → BTag.get b = (b, b + 1)) ∧
    BTag.get 255 = (255, 1) ∧
    BTag.new = 1 ∧
    (∀ n, 1 ≤ btagState n ∧ btagState n ≤ 255 ∧
      (BTag.get (btagState n)).1 ≠ 0) := by
  refine ⟨?_, rfl, rfl, ?_⟩
  · intro b h1 h2
    unfold BTag.get
    rw [if_neg (by omega)]
  · intro n
    induction n with
    | zero => decide
    | succ n ih =>
      obtain ⟨h1, h2, _⟩ := ih
      have hget : (BTag.get (btagState (n + 1))).1 = btagState (n + 1) := rfl
      have hst : btagState (n + 1) =
          if btagState n = 255 then 1 else btagState n + 1 := rfl
      rw [hget, hst]
      split <;> omega

/-- Witness for btag_generator_spec at the concrete state 7. -/
theorem btag_generator_spec_witness : BTag.get 7 = (7, 8) :=
  btag_generator_spec.1 7 (by decide) (by decide)

/-- Claim C9.  On the response buffer beginning
[0x01, 0, 0x30, 0x01, 0b00000101, 0b00000001], get_capabilities returns
bcd_version 0x0130 with flags (true, false, true, true); and on any buffer
whose byte 0 is not STATUS_SUCCESS it fails instead of returning
capabilities. -/
theorem get_capabilities_spec :
    get_capabilities capabilities_response_example =
      Except.ok example_capabilities ∧
    (∀ buffer : List Nat, buffer.getD 0 0 ≠ STATUS_SUCCESS →
      get_capabilities buffer = Except.error Error.StatusUnexpectedFailure) := by
  refine ⟨rfl, ?_⟩
  intro buffer h
  unfold get_capabilities
  rw [if_neg h]

/-- Witness for get_capabilities_spec on a buffer with status 0x80. -/
theorem get_capabilities_spec_witness :
    get_capabilities [0x80] = Except.error Error.StatusUnexpectedFailure :=
  get_capabilities_spec.2 [0x80] (by decide)

/-- Claim C8.  clear_buffers fails when INITIATE_CLEAR returns any status
other than SUCCESS; a PENDING poll whose byte 1 indicates data still
buffered fails immediately with BulkInFIFONotEmpty, regardless of the
remaining polls; a PENDING poll with the FIFO empty continues polling; a
SUCCESS poll ends the loop; and any other poll status is an unexpected
failure. -/
theorem clear_buffers_spec :
    (∀ init polls, init.getD 0 0 ≠ STATUS_SUCCESS →
      clear_buffers init polls =
        ControlOutcome.err Error.StatusUnexpectedFailure) ∧
    (∀ b rest, b ^^^ 0b00000001 ≠ 0 →
      clear_buffers [STATUS_SUCCESS] ([STATUS_PENDING, b] :: rest) =
        ControlOutcome.err Error.BulkInFIFONotEmpty) ∧
    (∀ rest,
      clear_buffers [STATUS_SUCCESS] ([STATUS_PENDING, 1] :: rest) =
        clear_buffers [STATUS_SUCCESS] rest) ∧
    (∀ f rest,
      clear_buffers [STATUS_SUCCESS] ([STATUS_SUCCESS, f] :: rest) =
        ControlOutcome.ok) ∧
    (∀ s f rest, s ≠ STATUS_SUCCESS → s ≠ STATUS_PENDING →
      clear_buffers [STATUS_SUCCESS] ([s, f] :: rest) =
        ControlOutcome.err Error.StatusUnexpectedFailure) := by
  refine ⟨?_, ?_, ?_, ?_, ?_⟩
  · intro init polls h
    unfold clear_buffers
    rw [if_neg h]
  · intro b rest h
    have hb : (b ^^^ 0b00000001 == 0) = false := by
      simpa using h
    simp [clear_buffers, check_clear_status_loop, STATUS_SUCCESS,
      STATUS_PENDING, hb]
  · intro rest
    simp [clear_buffers, check_clear_status_loop, STATUS_SUCCESS,
      STATUS_PENDING]
  · intro f rest
    simp [clear_buffers, check_clear_status_loop, STATUS_SUCCESS,
      STATUS_PENDING]
  · intro s f rest h1 h2
    have h1' : s ≠ 1 := h1
    have h2' : s ≠ 2 := h2
    simp [clear_buffers, check_clear_status_loop, STATUS_SUCCESS,
      STATUS_PENDING, h1', h2']

/-- Witness for clear_buffers_spec: a PENDING poll with byte 1 = 0 (data
still buffered) fails immediately with BulkInFIFONotEmpty. -/
theorem clear_buffers_spec_witness :
    clear_buffers [STATUS_SUCCESS] ([STATUS_PENDING, 0] :: []) =
      ControlOutcome.err Error.BulkInFIFONotEmpty :=
  clear_buffers_spec.2.1 0 [] (by decide)

/-- Claim C10.  For every bTag, transfer size, end-of-message flag and
terminator-character option, each of the four 12-byte header encoders
satisfies header[2] = bitwise-NOT of header[1]. -/
theorem header_byte2_complements_byte1 (btag size : Nat) (eom : Bool)
    (tc : Option Nat) :
    (device_dependent_msg_out_header btag size eom).getD 2 0 =
      notU8 ((device_dependent_msg_out_header btag size eom).getD 1 0) ∧
    (request_device_dependent_msg_in_header btag size tc).getD 2 0 =
      notU8 ((request_device_dependent_msg_in_header btag size tc).getD 1 0) ∧
    (_vendor_specific_out_header btag size).getD 2 0 =
      notU8 ((_vendor_specific_out_header btag size).getD 1 0) ∧
    (_request_vendor_specific_in_header btag size).getD 2 0 =
      notU8 ((_request_vendor_specific_in_header btag size).getD 1 0) := by
  refine ⟨?_, ?_, ?_, ?_⟩ <;>
    · show notU8 _ = notU8 (_ % 256)
      unfold notU8
      omega

/-- Claim C5.  For every payload, write splits it into exactly
ceil(L / 8192) transactions — exactly L / 8192 when L is a multiple of
8192 — and the end-of-message bit (bit 0 of header byte 8) is set in the
final transaction's header and in no other. -/
theorem write_transaction_count_and_eom (btag0 : Nat) (data : List Nat)
    (ep : Endpoint)
    (h_dir : ep.direction = Direction.Out)
    (h_ty : ep.transfer_type = TransferType.Bulk) :
    write btag0 data ep =
      Except.ok (writeTransactions btag0 data ep.max_packet_size) ∧
    (writeTransactions btag0 data ep.max_packet_size).length =
      (data.length + (APPLICATION_BUFFER_SIZE - 1)) / APPLICATION_BUFFER_SIZE ∧
    (data.length % APPLICATION_BUFFER_SIZE = 0 →
      (writeTransactions btag0 data ep.max_packet_size).length =
        data.length / APPLICATION_BUFFER_SIZE) ∧
    (∀ j, j < (writeTransactions btag0 data ep.max_packet_size).length →
      ((writeTransactions btag0 data ep.max_packet_size).getD j ([], [])).1.getD 8 0 =
        if j + 1 = (writeTransactions btag0 data ep.max_packet_size).length
        then 1 else 0) := by
  have hceil := writeTransactions_length btag0 data ep.max_packet_size
  have hnum := num_transactions_eq_ceil data.length
  refine ⟨?_, by rw [hceil, hnum], ?_, ?_⟩
  · unfold write
    rw [if_neg]
    push_neg
    exact ⟨h_dir, h_ty⟩
  · intro hmul
    rw [hceil, hnum]
    unfold APPLICATION_BUFFER_SIZE
    unfold APPLICATION_BUFFER_SIZE at hmul
    omega
  · intro j hj
    rw [hceil] at hj ⊢
    unfold writeTransactions
    rw [writeTxAux_header_byte8 ep.max_packet_size
      (num_transactions data.length) (chunks APPLICATION_BUFFER_SIZE data)
      btag0 0 j ?_]
    · rw [show 0 + j + 1 = j + 1 from by omega]
    · rw [chunks_length APPLICATION_BUFFER_SIZE (by decide) data.length data
        (le_refl _), ← num_transactions_eq_ceil]
      exact hj

/-- Witness for write_transaction_count_and_eom at the "*IDN?" input. -/
theorem write_transaction_count_and_eom_witness :
    write 1 idn_command bulk_out_ep_64 =
      Except.ok (writeTransactions 1 idn_command
        bulk_out_ep_64.max_packet_size) ∧
    (writeTransactions 1 idn_command bulk_out_ep_64.max_packet_size).length =
      (idn_command.length + (APPLICATION_BUFFER_SIZE - 1)) /
        APPLICATION_BUFFER_SIZE ∧
    (idn_command.length % APPLICATION_BUFFER_SIZE = 0 →
      (writeTransactions 1 idn_command bulk_out_ep_64.max_packet_size).length =
        idn_command.length / APPLICATION_BUFFER_SIZE) ∧
    (∀ j, j < (writeTransactions 1 idn_command
        bulk_out_ep_64.max_packet_size).length →
      ((writeTransactions 1 idn_command
          bulk_out_ep_64.max_packet_size).getD j ([], [])).1.getD 8 0 =
        if j + 1 = (writeTransactions 1 idn_command
            bulk_out_ep_64.max_packet_size).length
        then 1 else 0) :=
  write_transaction_count_and_eom 1 idn_command bulk_out_ep_64 rfl rfl

-- ===== Helper lemmas about the read loop =====

theorem readLoop_cons (buffer output_data : List Nat) (it : Nat)
    (resp : List Nat) (rest : List (List Nat))
    (h12 : USBTMC_HEADER_SIZE ≤ resp.length)
    (hb : USBTMC_HEADER_SIZE ≤ buffer.length) :
    readLoop buffer output_data it (resp :: rest) =
      if resp.getD 8 0 &&& 0b00000001 ≠ 0 then
        ReadOutcome.ok (output_data ++
          (resp.take (min resp.length buffer.length)).drop USBTMC_HEADER_SIZE)
          (it + 1)
      else
        readLoop (resp.take (min resp.length buffer.length) ++
            buffer.drop (min resp.length buffer.length))
          (output_data ++
            (resp.take (min resp.length buffer.length)).drop USBTMC_HEADER_SIZE)
          (it + 1) rest := by
  have hn12 : USBTMC_HEADER_SIZE ≤ min resp.length buffer.length :=
    le_min h12 hb
  have hnr : min resp.length buffer.length ≤ resp.length := min_le_left _ _
  have hnb : min resp.length buffer.length ≤ buffer.length := min_le_right _ _
  have ht : (resp.take (min resp.length buffer.length)).length =
      min resp.length buffer.length := by
    simp [List.length_take]
  have hbr1len : (resp.take (min resp.length buffer.length) ++
      buffer.drop (min resp.length buffer.length)).length = buffer.length := by
    simp [List.length_take, List.length_drop]
  have htake : (resp.take (min resp.length buffer.length) ++
        buffer.drop (min resp.length buffer.length)).take
          (min resp.length buffer.length) =
      resp.take (min resp.length buffer.length) := by
    rw [List.take_left' ht]
  have hslice : sliceRange (resp.take (min resp.length buffer.length) ++
        buffer.drop (min resp.length buffer.length)) USBTMC_HEADER_SIZE
        (min resp.length buffer.length) =
      some ((resp.take (min resp.length buffer.length)).drop
        USBTMC_HEADER_SIZE) := by
    unfold sliceRange
    rw [if_pos ⟨hn12, by rw [hbr1len]; exact hnb⟩, htake]
  have hgetD : (resp.take (min resp.length buffer.length) ++
        buffer.drop (min resp.length buffer.length)).getD 8 0 =
      resp.getD 8 0 := by
    rw [List.getD_append _ _ _ 8 (by rw [ht]; unfold USBTMC_HEADER_SIZE at hn12; omega)]
    rw [List.getD_eq_getElem?_getD,
      List.getElem?_take_of_lt (by unfold USBTMC_HEADER_SIZE at hn12; omega),
      ← List.getD_eq_getElem?_getD]
  simp only [readLoop, read_bulk]
  rw [hslice, hgetD]

theorem readLoop_run (BL : Nat) (hBL : USBTMC_HEADER_SIZE ≤ BL) :
    ∀ (pre : List (List Nat)) (resp_eom : List Nat) (rest : List (List Nat))
      (buffer output_data : List Nat) (it : Nat),
      buffer.length = BL →
      (∀ r ∈ pre, USBTMC_HEADER_SIZE ≤ r.length ∧
        r.getD 8 0 &&& 0b00000001 = 0) →
      USBTMC_HEADER_SIZE ≤ resp_eom.length →
      resp_eom.getD 8 0 &&& 0b00000001 ≠ 0 →
      readLoop buffer output_data it (pre ++ resp_eom :: rest) =
        ReadOutcome.ok
          (output_data ++ ((pre ++ [resp_eom]).map (fun r =>
            (r.take (min r.length BL)).drop USBTMC_HEADER_SIZE)).flatten)
          (it + (pre.length + 1)) := by
  intro pre
  induction pre with
  | nil =>
    intro resp rest buffer acc it hblen hpre h12 heom
    rw [List.nil_append,
      readLoop_cons buffer acc it resp rest h12 (by omega), if_pos heom]
    simp [hblen]
  | cons p pre' ih =>
    intro resp rest buffer acc it hblen hpre h12 heom
    have hp := hpre p (List.mem_cons_self _ _)
    rw [List.cons_append,
      readLoop_cons buffer acc it p _ hp.1 (by omega),
      if_neg (fun hcon => hcon hp.2)]
    rw [ih resp rest _ _ (it + 1)
      (by simp [List.length_take, List.length_drop]; omega)
      (fun r hr => hpre r (List.mem_cons_of_mem _ hr)) h12 heom]
    simp only [hblen, List.map_cons, List.flatten_cons, List.cons_append,
      List.length_cons, List.append_assoc]
    congr 1
    omega

/-- Claim C4.  For any trace of device responses each at least 12 bytes
long, read consumes exactly one response per loop iteration (one request
write plus one bulk read), terminates exactly after the first response
whose header byte 8 has bit 0 set — independently of any later responses —
and returns the concatenation over the consumed responses of bytes
12..bytes_read, with no trimming or filtering. -/
theorem read_concatenates_until_eom (btag0 : Nat)
    (bulk_in_endpoint bulk_out_endpoint : Endpoint) (caps : Capabilities)
    (pre : List (List Nat)) (resp_eom : List Nat) (rest : List (List Nat))
    (h_out_dir : bulk_out_endpoint.direction = Direction.Out)
    (h_out_ty : bulk_out_endpoint.transfer_type = TransferType.Bulk)
    (h_in_dir : bulk_in_endpoint.direction = Direction.In)
    (hpre : ∀ r ∈ pre, USBTMC_HEADER_SIZE ≤ r.length ∧
      r.getD 8 0 &&& 0b00000001 = 0)
    (h12 : USBTMC_HEADER_SIZE ≤ resp_eom.length)
    (heom : resp_eom.getD 8 0 &&& 0b00000001 ≠ 0) :
    read btag0 bulk_in_endpoint bulk_out_endpoint caps
        (pre ++ resp_eom :: rest) =
      ReadOutcome.ok
        (((pre ++ [resp_eom]).map (fun r : List Nat =>
          (r.take (min r.length
            (bulk_in_endpoint.max_packet_size + USBTMC_HEADER_SIZE))).drop
            USBTMC_HEADER_SIZE)).flatten)
        (pre.length + 1) := by
  unfold read
  rw [if_neg (by push_neg; exact ⟨h_out_dir, h_out_ty⟩),
    if_neg (by push_neg; exact ⟨h_in_dir, h_out_ty⟩)]
  rw [readLoop_run (bulk_in_endpoint.max_packet_size + USBTMC_HEADER_SIZE)
    (by omega) pre resp_eom rest _ _ 0 (by simp) hpre h12 heom]
  simp

/-- Witness for read_concatenates_until_eom: a 14-byte non-final fragment
followed by a 15-byte final fragment yields the concatenated payloads in
two iterations. -/
theorem read_concatenates_until_eom_witness :
    read 1 bulk_in_ep_64 bulk_out_ep_64 example_capabilities
        ([[2, 1, 254, 0, 0, 0, 0, 0, 0, 0, 0, 0, 10, 20]] ++
          [1, 1, 254, 0, 0, 0, 0, 0, 1, 0, 0, 0, 30, 40, 50] :: []) =
      ReadOutcome.ok
        ((([[2, 1, 254, 0, 0, 0, 0, 0, 0, 0, 0, 0, 10, 20]] ++
            [[1, 1, 254, 0, 0, 0, 0, 0, 1, 0, 0, 0, 30, 40, 50]]).map
            (fun r : List Nat =>
          (r.take (min r.length
            (bulk_in_ep_64.max_packet_size + USBTMC_HEADER_SIZE))).drop
            USBTMC_HEADER_SIZE)).flatten)
        ([[2, 1, 254, 0, 0, 0, 0, 0, 0, 0, 0, 0, 10, 20]].length + 1) :=
  read_concatenates_until_eom 1 bulk_in_ep_64 bulk_out_ep_64
    example_capabilities
    [[2, 1, 254, 0, 0, 0, 0, 0, 0, 0, 0, 0, 10, 20]]
    [1, 1, 254, 0, 0, 0, 0, 0, 1, 0, 0, 0, 30, 40, 50] []
    rfl rfl rfl (by decide) (by decide) (by decide)

theorem readLoop_short_panics (buffer output_data : List Nat) (it : Nat)
    (resp : List Nat) (rest : List (List Nat))
    (h : min resp.length buffer.length < USBTMC_HEADER_SIZE) :
    readLoop buffer output_data it (resp :: rest) = ReadOutcome.panic := by
  have hn : ¬ (USBTMC_HEADER_SIZE ≤ min resp.length buffer.length ∧
      min resp.length buffer.length ≤
        (resp.take (min resp.length buffer.length) ++
          buffer.drop (min resp.length buffer.length)).length) := by
    rintro ⟨h1, -⟩
    omega
  simp only [readLoop, read_bulk]
  unfold sliceRange
  rw [if_neg hn]

/-- Claim C7.  If the transport reports fewer than 12 bytes read in an
iteration of read's loop, the payload extraction buffer[12..bytes_read] is
an out-of-bounds slice: read neither returns a value nor a typed error but
panics, so its results are only defined when every device response is at
least 12 bytes. -/
theorem read_short_response_out_of_bounds (btag0 : Nat)
    (bulk_in_endpoint bulk_out_endpoint : Endpoint) (caps : Capabilities)
    (resp : List Nat) (rest : List (List Nat))
    (h_out_dir : bulk_out_endpoint.direction = Direction.Out)
    (h_out_ty : bulk_out_endpoint.transfer_type = TransferType.Bulk)
    (h_in_dir : bulk_in_endpoint.direction = Direction.In)
    (h_short : resp.length < USBTMC_HEADER_SIZE) :
    read btag0 bulk_in_endpoint bulk_out_endpoint caps (resp :: rest) =
      ReadOutcome.panic := by
  unfold read
  rw [if_neg (by push_neg; exact ⟨h_out_dir, h_out_ty⟩),
    if_neg (by push_neg; exact ⟨h_in_dir, h_out_ty⟩)]
  exact readLoop_short_panics _ _ _ _ _ (by omega)

/-- Witness for read_short_response_out_of_bounds on a 3-byte response. -/
theorem read_short_response_out_of_bounds_witness :
    read 1 bulk_in_ep_64 bulk_out_ep_64 example_capabilities [[1, 2, 3]] =
      ReadOutcome.panic :=
  read_short_response_out_of_bounds 1 bulk_in_ep_64 bulk_out_ep_64
    example_capabilities [1, 2, 3] [] rfl rfl rfl (by decide)

end Usbtmc
